import Mathlib

/-!
Verification development for the authenticated-request execution layer of the
`golang-common-packages/payment` repository (PayPal client).

The Go source is shallowly embedded:
* `model.go` structs become Lean structures (only the fields the execution
  layer reads; pointer-typed struct members that the layer never inspects are
  elided, which is noted at each structure);
* Go `time.Time` values are modelled as `Int` seconds, with `0` standing for
  the zero `time.Time` (so `IsZero` becomes `= 0`); durations are seconds;
* the network is an oracle `NetResult` describing what `http.Client.Do` and
  the body read produced;
* `encoding/json` is modelled by an executable JSON parser plus unmarshal
  functions that mirror the package's behaviour on the inputs that matter:
  object fields are processed in input order, well-typed fields are assigned,
  a type mismatch records the first error and processing continues, unknown
  fields are ignored, and syntactically invalid input leaves the destination
  untouched.
-/

namespace Payment

/-- JSON values, as produced by `encoding/json` tokenisation. Numbers are
integral (`Int`) since every body relevant here uses integral numbers. -/
inductive Json where
  | null
  | bool (b : Bool)
  | num (n : Int)
  | str (s : String)
  | arr (elems : List Json)
  | obj (fields : List (String × Json))
deriving Repr

/-- The double-quote character. -/
def quoteChar : Char := Char.ofNat 34

/-- The backslash character. -/
def backslashChar : Char := Char.ofNat 92

/-- The opening-brace character. -/
def lbraceChar : Char := Char.ofNat 123

/-- The closing-brace character. -/
def rbraceChar : Char := Char.ofNat 125

/-- Skip JSON whitespace. -/
def skipWs : List Char → List Char
  | [] => []
  | c :: cs =>
    if c = ' ' ∨ c = '\n' ∨ c = '\t' ∨ c = '\r' then skipWs cs else c :: cs

/-- Resolve a JSON escape character (the character after a backslash). -/
def unescapeChar (c : Char) : Option Char :=
  if c = quoteChar then some quoteChar
  else if c = backslashChar then some backslashChar
  else if c = '/' then some '/'
  else if c = 'n' then some '\n'
  else if c = 't' then some '\t'
  else if c = 'r' then some '\r'
  else none

/-- Parse the characters of a JSON string after the opening quote; returns the
accumulated characters (reversed accumulator convention) and the remainder. -/
def parseStrAux (acc : List Char) : List Char → Option (String × List Char)
  | [] => none
  | c :: cs =>
    if c = quoteChar then some (String.mk acc.reverse, cs)
    else if c = backslashChar then
      match cs with
      | [] => none
      | e :: cs' =>
        match unescapeChar e with
        | some u => parseStrAux (u :: acc) cs'
        | none => none
    else parseStrAux (c :: acc) cs

/-- Parse a run of decimal digits (at least one). -/
def parseDigitsAux (acc : Nat) (seen : Bool) : List Char → Option (Nat × List Char)
  | [] => if seen then some (acc, []) else none
  | c :: cs =>
    if c.isDigit then parseDigitsAux (acc * 10 + (c.toNat - 48)) true cs
    else if seen then some (acc, c :: cs) else none

/-- Check that `lit` is a literal starting `cs` and drop it. -/
def dropLit : List Char → List Char → Option (List Char)
  | [], cs => some cs
  | _ :: _, [] => none
  | l :: ls, c :: cs => if l = c then dropLit ls cs else none

mutual

/-- Parse one JSON value. `fuel` bounds nesting depth. -/
def parseVal : Nat → List Char → Option (Json × List Char)
  | 0, _ => none
  | fuel + 1, cs =>
    match skipWs cs with
    | [] => none
    | c :: rest =>
      if c = quoteChar then
        match parseStrAux [] rest with
        | some (s, r) => some (Json.str s, r)
        | none => none
      else if c = lbraceChar then
        match skipWs rest with
        | d :: r2 =>
          if d = rbraceChar then some (Json.obj [], r2)
          else
            match parseObjMembers fuel (skipWs rest) with
            | some (fs, r3) => some (Json.obj fs, r3)
            | none => none
        | [] => none
      else if c = '[' then
        match skipWs rest with
        | d :: r2 =>
          if d = ']' then some (Json.arr [], r2)
          else
            match parseArrElems fuel (skipWs rest) with
            | some (xs, r3) => some (Json.arr xs, r3)
            | none => none
        | [] => none
      else if c = 't' then
        match dropLit ['r', 'u', 'e'] rest with
        | some r => some (Json.bool true, r)
        | none => none
      else if c = 'f' then
        match dropLit ['a', 'l', 's', 'e'] rest with
        | some r => some (Json.bool false, r)
        | none => none
      else if c = 'n' then
        match dropLit ['u', 'l', 'l'] rest with
        | some r => some (Json.null, r)
        | none => none
      else if c = '-' then
        match parseDigitsAux 0 false rest with
        | some (nv, r) => some (Json.num (-(nv : Int)), r)
        | none => none
      else if c.isDigit then
        match parseDigitsAux 0 false (c :: rest) with
        | some (nv, r) => some (Json.num (nv : Int), r)
        | none => none
      else none

/-- Parse the members of a JSON object after the opening brace (nonempty). -/
def parseObjMembers : Nat → List Char → Option (List (String × Json) × List Char)
  | 0, _ => none
  | fuel + 1, cs =>
    match skipWs cs with
    | [] => none
    | c :: rest =>
      if c = quoteChar then
        match parseStrAux [] rest with
        | some (k, r1) =>
          match skipWs r1 with
          | ':' :: r2 =>
            match parseVal fuel r2 with
            | some (v, r3) =>
              match skipWs r3 with
              | d :: r4 =>
                if d = ',' then
                  match parseObjMembers fuel r4 with
                  | some (fs, r5) => some ((k, v) :: fs, r5)
                  | none => none
                else if d = rbraceChar then some ([(k, v)], r4)
                else none
              | [] => none
            | none => none
          | _ => none
        | none => none
      else none

/-- Parse the elements of a JSON array after the opening bracket (nonempty). -/
def parseArrElems : Nat → List Char → Option (List Json × List Char)
  | 0, _ => none
  | fuel + 1, cs =>
    match parseVal fuel cs with
    | some (v, r1) =>
      match skipWs r1 with
      | d :: r2 =>
        if d = ',' then
          match parseArrElems fuel r2 with
          | some (xs, r3) => some (v :: xs, r3)
          | none => none
        else if d = ']' then some ([v], r2)
        else none
      | [] => none
    | none => none

end

/-- Parse a complete JSON document; `none` on any syntax error (this is the
validity check `encoding/json.Unmarshal` performs before assigning fields). -/
def parseJson (s : String) : Option Json :=
  match parseVal (s.length + 1) s.data with
  | some (j, rest) => if skipWs rest = [] then some j else none
  | none => none

/-! ## Data model (`model.go`) -/

/-- Struct `TokenResponse` (`model.go`): response of the `/v1/oauth2/token` endpoint.
Go json tags: `refresh_token`, `access_token`, `token_type`, `expires_in`. -/
structure TokenResponse where
  refreshToken : String
  token : String
  type : String
  expiresIn : Int
deriving Repr, DecidableEq

/-- The zero value of `TokenResponse` (what `&TokenResponse{}` allocates). -/
def zeroTokenResponse : TokenResponse :=
  { refreshToken := "", token := "", type := "", expiresIn := 0 }

/-- Struct `ErrorResponseDetail` (`model.go`): json tags `field`, `issue`. -/
structure ErrorResponseDetail where
  field : String
  issue : String
deriving Repr, DecidableEq

/-- Struct `ErrorResponse` (`model.go`). The `Response *http.Response` member
(json tag `-`, never touched by unmarshalling) is modelled by the status code
of the originating response, the only part of it the claims inspect. -/
structure ErrorResponse where
  statusCode : Nat
  name : String
  debugID : String
  message : String
  informationLink : String
  details : List ErrorResponseDetail
deriving Repr, DecidableEq

/-- The `ErrorResponse` as freshly built by `Send`:
`&ErrorResponse{Response: resp}` — every json-visible field at its zero
value, the originating response attached. -/
def blankErrorResponse (status : Nat) : ErrorResponse :=
  { statusCode := status, name := "", debugID := "", message := "",
    informationLink := "", details := [] }

/-- Client Token State: the `Token *TokenResponse` and `tokenExpiresAt
time.Time` fields of `PayPalClient` (`paypal.go`). `tokenExpiresAt = 0`
models the zero `time.Time` (Go `IsZero`). -/
structure ClientState where
  token : Option TokenResponse
  tokenExpiresAt : Int
deriving Repr, DecidableEq

/-! ## `encoding/json` unmarshalling into the model structs

`encoding/json` assigns object members to struct fields by tag, processing
members in input order (later duplicates overwrite), ignoring unknown keys,
recording an `UnmarshalTypeError` for a mismatched member while continuing
with the remaining members, and leaving the destination untouched when the
document is not syntactically valid JSON. -/

/-- Extract a JSON string, as unmarshalling into a `string` field does. -/
def jString? : Json → Option String
  | .str s => some s
  | _ => none

/-- Extract an integral JSON number, as unmarshalling into an `int64` does. -/
def jInt? : Json → Option Int
  | .num n => some n
  | _ => none

/-- Unmarshal one object into `ErrorResponseDetail` (zero value on
non-object input, mirroring that a mismatched array element contributes a
zero-valued element while the error is recorded). -/
def unmarshalErrorDetail (j : Json) : ErrorResponseDetail :=
  match j with
  | .obj fs =>
    fs.foldl
      (fun acc kv =>
        if kv.1 = "field" then
          match jString? kv.2 with
          | some s => { acc with field := s }
          | none => acc
        else if kv.1 = "issue" then
          match jString? kv.2 with
          | some s => { acc with issue := s }
          | none => acc
        else acc)
      { field := "", issue := "" }
  | _ => { field := "", issue := "" }

/-- One member-assignment step of unmarshalling into `ErrorResponse`
(fields matched by json tag; the `Response` member has tag `-` and is never
assigned). -/
def errorFieldStep (acc : ErrorResponse) (kv : String × Json) : ErrorResponse :=
  if kv.1 = "name" then
    match jString? kv.2 with
    | some s => { acc with name := s }
    | none => acc
  else if kv.1 = "debug_id" then
    match jString? kv.2 with
    | some s => { acc with debugID := s }
    | none => acc
  else if kv.1 = "message" then
    match jString? kv.2 with
    | some s => { acc with message := s }
    | none => acc
  else if kv.1 = "information_link" then
    match jString? kv.2 with
    | some s => { acc with informationLink := s }
    | none => acc
  else if kv.1 = "details" then
    match kv.2 with
    | .arr xs => { acc with details := xs.map unmarshalErrorDetail }
    | _ => acc
  else acc

/-- Unmarshal a JSON document into an existing `ErrorResponse`, as
`json.Unmarshal(data, errResp)` in `Send` does: fields that parse are
assigned, everything else is left as it was (the returned error is discarded
by `Send`). -/
def unmarshalErrorResponse (body : String) (init : ErrorResponse) : ErrorResponse :=
  match parseJson body with
  | some (.obj fs) => fs.foldl errorFieldStep init
  | _ => init

/-- Decode the members of a JSON object into a `TokenResponse`
(`json.NewDecoder(resp.Body).Decode(response)` in `GetAccessToken`):
well-typed members are assigned in order, a type mismatch records the first
error and decoding continues with the remaining members. -/
def decodeTokenFields : List (String × Json) → TokenResponse → Option String →
    TokenResponse × Option String
  | [], acc, e => (acc, e)
  | (k, v) :: fs, acc, e =>
    if k = "refresh_token" then
      match jString? v with
      | some s => decodeTokenFields fs { acc with refreshToken := s } e
      | none =>
        decodeTokenFields fs acc
          (e <|> some "json: cannot unmarshal value into field refresh_token")
    else if k = "access_token" then
      match jString? v with
      | some s => decodeTokenFields fs { acc with token := s } e
      | none =>
        decodeTokenFields fs acc
          (e <|> some "json: cannot unmarshal value into field access_token")
    else if k = "token_type" then
      match jString? v with
      | some s => decodeTokenFields fs { acc with type := s } e
      | none =>
        decodeTokenFields fs acc
          (e <|> some "json: cannot unmarshal value into field token_type")
    else if k = "expires_in" then
      match jInt? v with
      | some n => decodeTokenFields fs { acc with expiresIn := n } e
      | none =>
        decodeTokenFields fs acc
          (e <|> some "json: cannot unmarshal value into field expires_in")
    else decodeTokenFields fs acc e

/-- Decode a body into a `TokenResponse` starting from `init`.
Invalid JSON or a non-object document yields an error with `init`
untouched. -/
def decodeTokenBody (body : String) (init : TokenResponse) :
    TokenResponse × Option String :=
  match parseJson body with
  | some (.obj fs) => decodeTokenFields fs init none
  | some _ => (init, some "json: cannot unmarshal value into TokenResponse")
  | none => (init, some "invalid character in body")

/-! ## Transport (`Send`, `paymentstore.go`) -/

/-- What the HTTP exchange produced: either `http.Client.Do` failed
(transport error), or a response arrived with a status code and a body;
`readOk = false` means reading the body (`ioutil.ReadAll`) fails. -/
inductive NetResult where
  | transportErr (msg : String)
  | response (status : Nat) (readOk : Bool) (body : String)
deriving Repr, DecidableEq

/-- The `error` values the execution layer returns, separated by origin:
a transport failure from `http.Client.Do`, an `*ErrorResponse` built from a
non-2xx response, a JSON decode failure on a success body, or an
application-level error built with `errors.New`. -/
inductive GoError where
  | transport (msg : String)
  | errorResponse (e : ErrorResponse)
  | decode (msg : String)
  | app (msg : String)
deriving Repr, DecidableEq

/-- The dynamic type of the `v interface{}` destination passed to `Send`:
`nil`, an `io.Writer`, or a typed struct pointer decoded from JSON. -/
inductive DestKind where
  | nilDest
  | writer
  | typed
deriving Repr, DecidableEq

/-- Everything observable about one `Send` call: the returned error, what was
copied into an `io.Writer` destination, and the final value of a typed
destination. -/
structure SendOut (α : Type) where
  err : Option GoError
  written : Option String
  val : α
deriving Repr, DecidableEq

/-- The `ErrorResponse` built by `Send` for a non-2xx response:
`errResp := &ErrorResponse{Response: resp}`, then, only when the body read
succeeded and produced at least one byte, `json.Unmarshal(data, errResp)`
with its error discarded. -/
def buildErrorResponse (status : Nat) (readOk : Bool) (body : String) : ErrorResponse :=
  if readOk ∧ body.length > 0 then
    unmarshalErrorResponse body (blankErrorResponse status)
  else blankErrorResponse status

/-- Function `Send` (`paymentstore.go`): transport errors are returned as-is;
a status outside 200–299 returns the built `ErrorResponse`; on success a nil
destination means no decoding, an `io.Writer` destination receives the body
verbatim, and a typed destination is JSON-decoded by `decode` (which, like
`json.Decoder.Decode`, returns the partially filled value together with an
optional error that `Send` returns unwrapped). Header defaulting is modelled
separately by `sendDefaultHeaders`. -/
def Send (net : NetResult) (dest : DestKind)
    (decode : String → α → α × Option String) (init : α) : SendOut α :=
  match net with
  | .transportErr m => { err := some (.transport m), written := none, val := init }
  | .response status readOk body =>
    if status < 200 ∨ status > 299 then
      { err := some (.errorResponse (buildErrorResponse status readOk body)),
        written := none, val := init }
    else
      match dest with
      | .nilDest => { err := none, written := none, val := init }
      | .writer => { err := none, written := some body, val := init }
      | .typed =>
        let d := decode body init
        { err := d.2.map GoError.decode, written := none, val := d.1 }

/-! ## Request headers

`http.Header` modelled as an association list; `Header.Set` replaces any
existing value for the key, `Header.Get` returns `""` when absent. The
source always uses one fixed spelling per key, so Go's key canonicalisation
is the identity on everything that appears here. -/

/-- Header map. -/
def Headers : Type := List (String × String)

/-- Model of `req.Header.Set(k, v)`. -/
def headerSet (hs : Headers) (k v : String) : Headers :=
  (List.filter (fun p => p.1 ≠ k) hs) ++ [(k, v)]

/-- Model of `req.Header.Get(k)` as an `Option` (`none` = header absent). -/
def headerFind? (hs : Headers) (k : String) : Option String :=
  (List.find? (fun p => p.1 = k) hs).map (fun p => p.2)

/-- Model of `req.Header.Get(k)` (Go returns the empty string when absent). -/
def headerGet (hs : Headers) (k : String) : String :=
  (headerFind? hs k).getD ""

/-- The header defaulting performed at the top of `Send`: always sets
`Accept` and `Accept-Language`, sets `Content-type` only when absent, and
adds `Prefer: return=representation` when the client was put in
return-representation mode. -/
def sendDefaultHeaders (returnRepresentation : Bool) (hs : Headers) : Headers :=
  let h1 := headerSet hs "Accept" "application/json"
  let h2 := headerSet h1 "Accept-Language" "en_US"
  let h3 := if headerGet h2 "Content-type" = "" then
      headerSet h2 "Content-type" "application/json"
    else h2
  if returnRepresentation then headerSet h3 "Prefer" "return=representation" else h3

/-! ## Token acquisition (`GetAccessToken`, `paypal.go`) -/

/-- Function `GetAccessToken` (`paypal.go` 140–159). The request construction
(`POST {APIBase}/v1/oauth2/token`, form body, basic auth) carries no
claim-relevant state and is elided; `net` is the outcome of the exchange.
`response := &TokenResponse{}` is decoded into by `SendWithBasicAuth` /
`Send`; afterwards, exactly when `response.Token != ""`, the client's Token
State is replaced: `c.Token = response;
c.tokenExpiresAt = time.Now().Add(time.Duration(response.ExpiresIn) *
time.Second)`. Returns `(response, err)` with `err` the `Send` error,
unchanged. -/
def GetAccessToken (st : ClientState) (now : Int) (net : NetResult) :
    (TokenResponse × Option GoError) × ClientState :=
  let out := Send net .typed decodeTokenBody zeroTokenResponse
  let response := out.val
  let st' :=
    if response.token ≠ "" then
      { token := some response, tokenExpiresAt := now + response.expiresIn }
    else st
  ((response, out.err), st')

/-! ## Authenticated dispatch (`SendWithAuth`, `paymentstore.go`) -/

/-- The observable steps of one `SendWithAuth` call, in order: a call to
`GetAccessToken` (refresh), and the dispatch of the business request through
`Send`, recording the `Authorization` header value it carries (or `none`
when no token is held, in which case no bearer header is set). -/
inductive Event where
  | refreshCall
  | dispatch (authHeader : Option String)
deriving Repr, DecidableEq

/-- Result of a `SendWithAuth` call: its ordered trace of observable steps,
the returned error, the final typed-destination value, and the client state
afterwards. -/
structure AuthResult (α : Type) where
  trace : List Event
  err : Option GoError
  val : α
  state : ClientState
deriving Repr, DecidableEq

/-- Constant `RequestNewTokenBeforeExpiresIn` = `time.Duration(60) * time.Second`
(`paypal.go`), in seconds. -/
def requestNewTokenBeforeExpiresIn : Int := 60

/-- The bearer value `c.Token.Token` read for the `Authorization` header
(only evaluated when a token is held). -/
def tokenValue : Option TokenResponse → String
  | some t => t.token
  | none => ""

/-- Function `SendWithAuth` (`paymentstore.go` 61–82). If a token is held and
`!c.tokenExpiresAt.IsZero() && c.tokenExpiresAt.Sub(time.Now()) <
RequestNewTokenBeforeExpiresIn`, one `GetAccessToken` call is made (with
outcome `tokenNet`); its error, if any, is returned immediately and the
business request is not dispatched. Otherwise the `Authorization: Bearer`
header is set from the (possibly refreshed) held token — or not at all when
no token is held — and the business request is dispatched via `Send` with
outcome `bizNet`. -/
def SendWithAuth (st : ClientState) (now : Int) (tokenNet bizNet : NetResult)
    (dest : DestKind) (decode : String → α → α × Option String) (init : α) :
    AuthResult α :=
  match st.token with
  | none =>
    let out := Send bizNet dest decode init
    { trace := [.dispatch none], err := out.err, val := out.val, state := st }
  | some _ =>
    if st.tokenExpiresAt ≠ 0 ∧
        st.tokenExpiresAt - now < requestNewTokenBeforeExpiresIn then
      let r := GetAccessToken st now tokenNet
      match r.1.2 with
      | some e => { trace := [.refreshCall], err := some e, val := init, state := r.2 }
      | none =>
        let hdr := "Bearer " ++ tokenValue r.2.token
        let out := Send bizNet dest decode init
        { trace := [.refreshCall, .dispatch (some hdr)], err := out.err,
          val := out.val, state := r.2 }
    else
      let hdr := "Bearer " ++ tokenValue st.token
      let out := Send bizNet dest decode init
      { trace := [.dispatch (some hdr)], err := out.err, val := out.val, state := st }

/-- Number of `GetAccessToken` calls recorded in a trace. -/
def refreshCount (t : List Event) : Nat :=
  (t.filter (fun e => e = Event.refreshCall)).length

/-! ## Client factory (`newPayPal`, `paypal.go` 108–135) -/

/-- The `PayPal` configuration struct (`model.go`): `ClientID`, `SecretID`,
`APIBase`. -/
structure PayPalConfig where
  clientID : String
  secretID : String
  apiBase : String
deriving Repr, DecidableEq

/-- The fields of a `*PayPalClient` that `newPayPal` would populate (the
`http.Client` handle carries no observable state here). -/
structure PayPalClientRec where
  clientID : String
  secret : String
  apiBase : String
deriving Repr, DecidableEq

/-- Possible outcomes of `newPayPal`. -/
inductive FactoryOutcome where
  /-- `log.Fatalln` on missing configuration (process exit). -/
  | fatal
  /-- Assignment through the nil `*PayPalClient` read from the session map
  (`currentPayPalSession.Client = &http.Client{}` with
  `currentPayPalSession == nil`): a runtime nil-pointer panic. -/
  | nilDereference
  /-- The client found in the session map is returned. -/
  | existing (c : PayPalClientRec)
deriving Repr, DecidableEq

/-- Function `newPayPal` (`paypal.go` 108–135). `fingerprint` abstracts
`hasher.SHA1(string(json.Marshal(config)))`; `cache` is the global
`payPalClientSessionMapping` (`none` = key absent, i.e. the nil
`*PayPalClient`). Validation failure is fatal. On a cache miss the source
immediately assigns through the nil map value — it never allocates a new
`PayPalClient` — so the miss path is a nil dereference; on a hit the stored
instance is returned. -/
def newPayPal (fingerprint : PayPalConfig → String)
    (cache : String → Option PayPalClientRec) (config : PayPalConfig) :
    FactoryOutcome :=
  if config.clientID = "" ∨ config.secretID = "" ∨ config.apiBase = "" then
    .fatal
  else
    match cache (fingerprint config) with
    | none => .nilDereference
    | some c => .existing c

/-! ## `ExecuteApprovedAgreement` (`paypal.go` 355–375) -/

/-- Struct `ExecuteAgreementResponse` (`model.go`), restricted to its string fields
(json tags `id`, `state`, `description`); the nested `Payer`, `Plan`,
`ShippingAddress`, `AgreementDetails`, `StartDate` and `Links` members are
never read by the execution layer or the claims and are elided. -/
structure ExecuteAgreementResponse where
  id : String
  state : String
  description : String
deriving Repr, DecidableEq

/-- The zero value `&ExecuteAgreementResponse{}`. -/
def zeroExecAgreementResponse : ExecuteAgreementResponse :=
  { id := "", state := "", description := "" }

/-- JSON-decode the body into an `ExecuteAgreementResponse`
(`json.Decoder` semantics as for `decodeTokenFields`). -/
def decodeExecAgreementFields : List (String × Json) → ExecuteAgreementResponse →
    Option String → ExecuteAgreementResponse × Option String
  | [], acc, e => (acc, e)
  | (k, v) :: fs, acc, e =>
    if k = "id" then
      match jString? v with
      | some s => decodeExecAgreementFields fs { acc with id := s } e
      | none =>
        decodeExecAgreementFields fs acc
          (e <|> some "json: cannot unmarshal value into field id")
    else if k = "state" then
      match jString? v with
      | some s => decodeExecAgreementFields fs { acc with state := s } e
      | none =>
        decodeExecAgreementFields fs acc
          (e <|> some "json: cannot unmarshal value into field state")
    else if k = "description" then
      match jString? v with
      | some s => decodeExecAgreementFields fs { acc with description := s } e
      | none =>
        decodeExecAgreementFields fs acc
          (e <|> some "json: cannot unmarshal value into field description")
    else decodeExecAgreementFields fs acc e

/-- Decode a body into an `ExecuteAgreementResponse` starting from `init`. -/
def decodeExecAgreementBody (body : String) (init : ExecuteAgreementResponse) :
    ExecuteAgreementResponse × Option String :=
  match parseJson body with
  | some (.obj fs) => decodeExecAgreementFields fs init none
  | some _ => (init, some "json: cannot unmarshal value into ExecuteAgreementResponse")
  | none => (init, some "invalid character in body")

/-- Possible outcomes of `ExecuteApprovedAgreement`. -/
inductive ExecOutcome where
  /-- Evaluation of `c.Token.Token` with `c.Token == nil`: a runtime
  nil-pointer panic before any request is dispatched. -/
  | nilTokenPanic
  /-- The function returns `(resp, err)`, leaving the client in `state`. -/
  | result (resp : ExecuteAgreementResponse) (err : Option GoError)
      (state : ClientState)
deriving Repr, DecidableEq

/-- Function `ExecuteApprovedAgreement` (`paypal.go` 355–375). The request is built,
basic auth is set, then `req.Header.Set("Authorization", "Bearer "+
c.Token.Token)` dereferences `c.Token` unconditionally — a nil-pointer panic
when no token is held. Otherwise the call goes through `SendWithAuth`; a
send error is returned as-is with the (zero) response; on success, an empty
decoded `ID` produces `errors.New("Unable to execute agreement with token="
+ token)`. -/
def ExecuteApprovedAgreement (st : ClientState) (now : Int) (token : String)
    (tokenNet bizNet : NetResult) : ExecOutcome :=
  match st.token with
  | none => .nilTokenPanic
  | some _ =>
    let r := SendWithAuth st now tokenNet bizNet .typed
      decodeExecAgreementBody zeroExecAgreementResponse
    match r.err with
    | some e => .result r.val (some e) r.state
    | none =>
      if r.val.id = "" then
        .result r.val
          (some (.app ("Unable to execute agreement with token=" ++ token)))
          r.state
      else .result r.val none r.state

/-! ## Idempotency-capable operations (`paypal.go`) -/

/-- Headers of the request built by `CaptureAuthorizationWithPaypalRequestId`
(`paypal.go` 402–416) before dispatch: `NewRequest` creates an empty header
map, then `PayPal-Request-Id` is set exactly when the supplied `requestID`
is non-empty. -/
def captureAuthorizationRequestHeaders (requestID : String) : Headers :=
  if requestID ≠ "" then headerSet [] "PayPal-Request-Id" requestID else []

/-- Headers of the request built by `CaptureOrderWithPaypalRequestId`
(`paypal.go` 898–916): same `PayPal-Request-Id` logic (the function also
switches the client to return-representation mode, which only adds the
`Prefer` header at `Send` time). -/
def captureOrderRequestHeaders (requestID : String) : Headers :=
  if requestID ≠ "" then headerSet [] "PayPal-Request-Id" requestID else []

/-- Headers of the request built by `CreateOrderWithPaypalRequestID`
(`paypal.go` 827–853): same `PayPal-Request-Id` logic. -/
def createOrderRequestHeaders (requestID : String) : Headers :=
  if requestID ≠ "" then headerSet [] "PayPal-Request-Id" requestID else []

/-! ## Typed success destination for P6 -/

/-- The scalar fields of the `Order` struct (`model.go`) that P6's typed
destination exposes (json tags `id`, `status`, `intent`); nested members are
elided as before. -/
structure OrderRec where
  id : String
  status : String
  intent : String
deriving Repr, DecidableEq

/-- The zero value `&Order{}`. -/
def zeroOrderRec : OrderRec := { id := "", status := "", intent := "" }

/-- JSON-decode the body into an `OrderRec` (`json.Decoder` semantics). -/
def decodeOrderFields : List (String × Json) → OrderRec → Option String →
    OrderRec × Option String
  | [], acc, e => (acc, e)
  | (k, v) :: fs, acc, e =>
    if k = "id" then
      match jString? v with
      | some s => decodeOrderFields fs { acc with id := s } e
      | none =>
        decodeOrderFields fs acc
          (e <|> some "json: cannot unmarshal value into field id")
    else if k = "status" then
      match jString? v with
      | some s => decodeOrderFields fs { acc with status := s } e
      | none =>
        decodeOrderFields fs acc
          (e <|> some "json: cannot unmarshal value into field status")
    else if k = "intent" then
      match jString? v with
      | some s => decodeOrderFields fs { acc with intent := s } e
      | none =>
        decodeOrderFields fs acc
          (e <|> some "json: cannot unmarshal value into field intent")
    else decodeOrderFields fs acc e

/-- Decode a body into an `OrderRec` starting from `init`. -/
def decodeOrderBody (body : String) (init : OrderRec) : OrderRec × Option String :=
  match parseJson body with
  | some (.obj fs) => decodeOrderFields fs init none
  | some _ => (init, some "json: cannot unmarshal value into Order")
  | none => (init, some "invalid character in body")

end Payment

namespace Payment

/-- Claim C1: for every authenticated call through `SendWithAuth` on a client
that holds a token (and hence a stored expiry instant), a token refresh is
performed iff the remaining lifetime before the stored expiry instant is
less than 60 seconds; when it is, exactly one `GetAccessToken` call happens
and, unless it fails, it is followed by the single business dispatch; when
60 seconds or more remain, no refresh call is made. -/
theorem sendWithAuth_refresh_policy {α : Type} (st : ClientState) (now : Int)
    (tokenNet bizNet : NetResult) (dest : DestKind)
    (decode : String → α → α × Option String) (init : α)
    (tok : TokenResponse) (htok : st.token = some tok)
    (hexp : st.tokenExpiresAt ≠ 0) :
    (st.tokenExpiresAt - now < requestNewTokenBeforeExpiresIn ↔
      refreshCount (SendWithAuth st now tokenNet bizNet dest decode init).trace = 1)
    ∧ (st.tokenExpiresAt - now < requestNewTokenBeforeExpiresIn →
        (∃ h, (SendWithAuth st now tokenNet bizNet dest decode init).trace =
            [Event.refreshCall, Event.dispatch (some h)]) ∨
          ((SendWithAuth st now tokenNet bizNet dest decode init).trace =
              [Event.refreshCall] ∧
            (SendWithAuth st now tokenNet bizNet dest decode init).err ≠ none))
    ∧ (¬ st.tokenExpiresAt - now < requestNewTokenBeforeExpiresIn →
        refreshCount (SendWithAuth st now tokenNet bizNet dest decode init).trace = 0
          ∧ ∃ h, (SendWithAuth st now tokenNet bizNet dest decode init).trace =
              [Event.dispatch (some h)]) := by
  by_cases hc : st.tokenExpiresAt - now < requestNewTokenBeforeExpiresIn
  · rcases hget : (GetAccessToken st now tokenNet).1.2 with _ | e
    · simp [SendWithAuth, htok, hexp, hc, hget, refreshCount, List.filter]
    · simp [SendWithAuth, htok, hexp, hc, hget, refreshCount, List.filter]
  · simp [SendWithAuth, htok, hexp, hc, refreshCount, List.filter]

end Payment

namespace Payment

/-- A token body that decodes cleanly: access token `B`, 200 s lifetime. -/
def tokenBodyOk : String :=
  "\x7b\"access_token\":\"B\",\"token_type\":\"Bearer\",\"expires_in\":200\x7d"

/-- The empty JSON object. -/
def emptyObjBody : String := "\x7b\x7d"

/-- A held token nearing expiry, for concrete instantiations. -/
def heldToken : TokenResponse := { refreshToken := "", token := "T", type := "Bearer", expiresIn := 100 }

/-- Witness for `sendWithAuth_refresh_policy`: a client holding `heldToken`
with expiry instant 100 is called at time 90 (10 s remaining, below the 60 s
threshold). -/
theorem sendWithAuth_refresh_policy_witness :
    ((⟨some heldToken, 100⟩ : ClientState).tokenExpiresAt - 90 <
        requestNewTokenBeforeExpiresIn ↔
      refreshCount (SendWithAuth (⟨some heldToken, 100⟩ : ClientState) 90
        (NetResult.response 200 true tokenBodyOk)
        (NetResult.response 200 true emptyObjBody) DestKind.nilDest
        (fun _ (a : Unit) => (a, none)) ()).trace = 1)
    ∧ ((⟨some heldToken, 100⟩ : ClientState).tokenExpiresAt - 90 <
          requestNewTokenBeforeExpiresIn →
        (∃ h, (SendWithAuth (⟨some heldToken, 100⟩ : ClientState) 90
            (NetResult.response 200 true tokenBodyOk)
            (NetResult.response 200 true emptyObjBody) DestKind.nilDest
            (fun _ (a : Unit) => (a, none)) ()).trace =
            [Event.refreshCall, Event.dispatch (some h)]) ∨
          ((SendWithAuth (⟨some heldToken, 100⟩ : ClientState) 90
              (NetResult.response 200 true tokenBodyOk)
              (NetResult.response 200 true emptyObjBody) DestKind.nilDest
              (fun _ (a : Unit) => (a, none)) ()).trace = [Event.refreshCall] ∧
            (SendWithAuth (⟨some heldToken, 100⟩ : ClientState) 90
              (NetResult.response 200 true tokenBodyOk)
              (NetResult.response 200 true emptyObjBody) DestKind.nilDest
              (fun _ (a : Unit) => (a, none)) ()).err ≠ none))
    ∧ (¬ (⟨some heldToken, 100⟩ : ClientState).tokenExpiresAt - 90 <
          requestNewTokenBeforeExpiresIn →
        refreshCount (SendWithAuth (⟨some heldToken, 100⟩ : ClientState) 90
            (NetResult.response 200 true tokenBodyOk)
            (NetResult.response 200 true emptyObjBody) DestKind.nilDest
            (fun _ (a : Unit) => (a, none)) ()).trace = 0
          ∧ ∃ h, (SendWithAuth (⟨some heldToken, 100⟩ : ClientState) 90
              (NetResult.response 200 true tokenBodyOk)
              (NetResult.response 200 true emptyObjBody) DestKind.nilDest
              (fun _ (a : Unit) => (a, none)) ()).trace =
              [Event.dispatch (some h)]) :=
  sendWithAuth_refresh_policy (⟨some heldToken, 100⟩ : ClientState) 90
    (NetResult.response 200 true tokenBodyOk)
    (NetResult.response 200 true emptyObjBody) DestKind.nilDest
    (fun _ (a : Unit) => (a, none)) () heldToken rfl (by decide)

/-- Claim C2, counterexample: a `SendWithAuth` call on a client holding no token
makes no token request at all — the trace is a single dispatch with no
`Authorization` header, and Token State is untouched — refuting that a
client-credentials token request is performed before dispatch. -/
theorem sendWithAuth_nil_token_counterexample :
    (SendWithAuth (⟨none, 0⟩ : ClientState) 0 (NetResult.transportErr "unused")
        (NetResult.response 200 true emptyObjBody) DestKind.nilDest
        (fun _ (a : Unit) => (a, none)) ()).trace = [Event.dispatch none]
    ∧ refreshCount (SendWithAuth (⟨none, 0⟩ : ClientState) 0
        (NetResult.transportErr "unused")
        (NetResult.response 200 true emptyObjBody) DestKind.nilDest
        (fun _ (a : Unit) => (a, none)) ()).trace = 0
    ∧ (SendWithAuth (⟨none, 0⟩ : ClientState) 0 (NetResult.transportErr "unused")
        (NetResult.response 200 true emptyObjBody) DestKind.nilDest
        (fun _ (a : Unit) => (a, none)) ()).state = (⟨none, 0⟩ : ClientState) := by
  decide

/-- Claim C2, amended: when no token is held, `SendWithAuth` performs no token
request and does not touch Token State: the business request is dispatched
directly, without an `Authorization` header, and the transport's outcome
(e.g. the provider's authentication error) is returned unchanged. -/
theorem sendWithAuth_nil_token_no_refresh {α : Type} (st : ClientState)
    (now : Int) (tokenNet bizNet : NetResult) (dest : DestKind)
    (decode : String → α → α × Option String) (init : α)
    (htok : st.token = none) :
    (SendWithAuth st now tokenNet bizNet dest decode init).trace =
      [Event.dispatch none]
    ∧ refreshCount (SendWithAuth st now tokenNet bizNet dest decode init).trace = 0
    ∧ (SendWithAuth st now tokenNet bizNet dest decode init).state = st
    ∧ (SendWithAuth st now tokenNet bizNet dest decode init).err =
        (Send bizNet dest decode init).err := by
  simp [SendWithAuth, htok, refreshCount, List.filter]

/-- Witness for `sendWithAuth_nil_token_no_refresh` at a concrete tokenless
client whose business call comes back `401`. -/
theorem sendWithAuth_nil_token_no_refresh_witness :
    (SendWithAuth (⟨none, 0⟩ : ClientState) 7 (NetResult.transportErr "unused")
        (NetResult.response 401 true "") DestKind.nilDest
        (fun _ (a : Unit) => (a, none)) ()).trace = [Event.dispatch none]
    ∧ refreshCount (SendWithAuth (⟨none, 0⟩ : ClientState) 7
        (NetResult.transportErr "unused") (NetResult.response 401 true "")
        DestKind.nilDest (fun _ (a : Unit) => (a, none)) ()).trace = 0
    ∧ (SendWithAuth (⟨none, 0⟩ : ClientState) 7 (NetResult.transportErr "unused")
        (NetResult.response 401 true "") DestKind.nilDest
        (fun _ (a : Unit) => (a, none)) ()).state = (⟨none, 0⟩ : ClientState)
    ∧ (SendWithAuth (⟨none, 0⟩ : ClientState) 7 (NetResult.transportErr "unused")
        (NetResult.response 401 true "") DestKind.nilDest
        (fun _ (a : Unit) => (a, none)) ()).err =
        (Send (NetResult.response 401 true "") DestKind.nilDest
          (fun _ (a : Unit) => (a, none)) ()).err :=
  sendWithAuth_nil_token_no_refresh (⟨none, 0⟩ : ClientState) 7
    (NetResult.transportErr "unused") (NetResult.response 401 true "")
    DestKind.nilDest (fun _ (a : Unit) => (a, none)) () rfl

end Payment

namespace Payment

/-- Token body for a `200` that is valid JSON but mistypes `expires_in`: the
streaming decoder assigns `access_token` and then reports a type error, so
`GetAccessToken` returns an error while `response.Token != ""`. -/
def tokenBodyMistyped : String := "\x7b\"access_token\":\"A\",\"expires_in\":\"x\"\x7d"

/-- Claim C3, counterexample: a token-acquisition call that returns an error can
still mutate Token State. With a `200` response whose body is valid JSON but
mistypes `expires_in`, `json.Decoder.Decode` fills `Token = "A"` and returns
a type error; `GetAccessToken` keys the state update on `response.Token != ""`,
not on the error, so the held token and expiry are replaced although the call
errs. -/
theorem getAccessToken_error_mutation_counterexample :
    (GetAccessToken (⟨some heldToken, 1000⟩ : ClientState) 5
        (NetResult.response 200 true tokenBodyMistyped)).1.2 ≠ none
    ∧ (GetAccessToken (⟨some heldToken, 1000⟩ : ClientState) 5
        (NetResult.response 200 true tokenBodyMistyped)).2 ≠
        (⟨some heldToken, 1000⟩ : ClientState) := by
  decide

/-- Claim C3, amended: Token State is replaced exactly when the decoded
response carries a non-empty access token. In particular, for every
token-acquisition call whose decoded response has an empty access token —
which includes every transport failure and every non-2xx response, where
nothing is decoded — Token State is exactly what it was before the call, and
the caller receives the `Send` error unchanged. -/
theorem getAccessToken_failure_isolation (st : ClientState) (now : Int)
    (net : NetResult)
    (h : ((GetAccessToken st now net).1.1).token = "") :
    (GetAccessToken st now net).2 = st
    ∧ (GetAccessToken st now net).1.2 =
        (Send net .typed decodeTokenBody zeroTokenResponse).err := by
  have h' : (Send net .typed decodeTokenBody zeroTokenResponse).val.token = "" := by
    simpa [GetAccessToken] using h
  simp [GetAccessToken, h']

/-- Witness for `getAccessToken_failure_isolation`: a refused connection
decodes nothing, so the empty-token hypothesis holds and the client state
survives unchanged with the transport error propagated. -/
theorem getAccessToken_failure_isolation_witness :
    (GetAccessToken (⟨some heldToken, 1000⟩ : ClientState) 5
        (NetResult.transportErr "connection refused")).2 =
      (⟨some heldToken, 1000⟩ : ClientState)
    ∧ (GetAccessToken (⟨some heldToken, 1000⟩ : ClientState) 5
        (NetResult.transportErr "connection refused")).1.2 =
        (Send (NetResult.transportErr "connection refused") .typed
          decodeTokenBody zeroTokenResponse).err :=
  getAccessToken_failure_isolation (⟨some heldToken, 1000⟩ : ClientState) 5
    (NetResult.transportErr "connection refused") (by decide)

/-- Claim C4: on the first use of a configuration fingerprint the session map
lookup yields the nil `*PayPalClient`, and `newPayPal` assigns through it
instead of allocating — a nil-pointer dereference — while a later lookup
that finds a stored client returns that instance. -/
theorem newPayPal_first_use_nil_dereference :
    newPayPal (fun _ => "fp") (fun _ => none)
        (⟨"id", "secret", "https://api.sandbox.paypal.com"⟩ : PayPalConfig) =
      FactoryOutcome.nilDereference
    ∧ newPayPal (fun _ => "fp")
        (fun k => if k = "fp" then
            some (⟨"id", "secret", "https://api.sandbox.paypal.com"⟩ : PayPalClientRec)
          else none)
        (⟨"id", "secret", "https://api.sandbox.paypal.com"⟩ : PayPalConfig) =
      FactoryOutcome.existing
        (⟨"id", "secret", "https://api.sandbox.paypal.com"⟩ : PayPalClientRec)
    ∧ newPayPal (fun _ => "fp") (fun _ => none)
        (⟨"", "secret", "https://api.sandbox.paypal.com"⟩ : PayPalConfig) =
      FactoryOutcome.fatal := by
  decide

end Payment

namespace Payment

/-- Unmarshalling never assigns the carried response (`json:"-"`). -/
theorem errorFieldStep_statusCode (acc : ErrorResponse) (kv : String × Json) :
    (errorFieldStep acc kv).statusCode = acc.statusCode := by
  unfold errorFieldStep
  repeat' split
  all_goals rfl

/-- Folding member assignments never changes the carried response. -/
theorem foldl_errorFieldStep_statusCode (fs : List (String × Json))
    (init : ErrorResponse) :
    (fs.foldl errorFieldStep init).statusCode = init.statusCode := by
  induction fs generalizing init with
  | nil => rfl
  | cons kv fs ih => rw [List.foldl_cons, ih, errorFieldStep_statusCode]

/-- Unmarshalling via `unmarshalErrorResponse` preserves the carried response. -/
theorem unmarshalErrorResponse_statusCode (body : String) (init : ErrorResponse) :
    (unmarshalErrorResponse body init).statusCode = init.statusCode := by
  unfold unmarshalErrorResponse
  repeat' split
  all_goals first
  | rfl
  | exact foldl_errorFieldStep_statusCode _ _

/-- The P5 validation-error body. -/
def validationErrorBody : String :=
  "\x7b\"name\":\"VALIDATION_ERROR\",\"message\":\"Invalid request\",\"details\":[\x7b\"field\":\"amount\",\"issue\":\"required\"\x7d]\x7d"

/-- Claim C5: `Send` treats a completed exchange as success exactly when the
status is in 200–299: any status outside that range returns the built
`ErrorResponse` carrying the originating response (its status), even when
the body read fails or the body is not valid JSON (the structured fields
then stay at whatever parsed — the zero value); the P5 body populates
`Name = VALIDATION_ERROR` and one detail with `Field = amount`. -/
theorem send_status_classification {α : Type} (status : Nat) (readOk : Bool)
    (body : String) (dest : DestKind)
    (decode : String → α → α × Option String) (init : α)
    (h : status < 200 ∨ status > 299) :
    (Send (.response status readOk body) dest decode init).err =
      some (.errorResponse (buildErrorResponse status readOk body))
    ∧ (buildErrorResponse status readOk body).statusCode = status
    ∧ (readOk = false →
        buildErrorResponse status readOk body = blankErrorResponse status)
    ∧ (parseJson body = none →
        buildErrorResponse status readOk body = blankErrorResponse status)
    ∧ (buildErrorResponse 400 true validationErrorBody).name = "VALIDATION_ERROR"
    ∧ (buildErrorResponse 400 true validationErrorBody).message = "Invalid request"
    ∧ (buildErrorResponse 400 true validationErrorBody).details =
        [{ field := "amount", issue := "required" }] := by
  refine ⟨by simp [Send, h], ?_, ?_, ?_, by decide, by decide, by decide⟩
  · unfold buildErrorResponse
    split
    · rw [unmarshalErrorResponse_statusCode]
      rfl
    · rfl
  · intro hr
    simp [buildErrorResponse, hr]
  · intro hp
    unfold buildErrorResponse
    split
    · unfold unmarshalErrorResponse
      rw [hp]
    · rfl

/-- Witness for `send_status_classification`: a `400` response carrying the
P5 body. -/
theorem send_status_classification_witness :
    (Send (.response 400 true validationErrorBody) DestKind.nilDest
        (fun _ (a : Unit) => (a, none)) ()).err =
      some (.errorResponse (buildErrorResponse 400 true validationErrorBody))
    ∧ (buildErrorResponse 400 true validationErrorBody).statusCode = 400
    ∧ (true = false →
        buildErrorResponse 400 true validationErrorBody = blankErrorResponse 400)
    ∧ (parseJson validationErrorBody = none →
        buildErrorResponse 400 true validationErrorBody = blankErrorResponse 400)
    ∧ (buildErrorResponse 400 true validationErrorBody).name = "VALIDATION_ERROR"
    ∧ (buildErrorResponse 400 true validationErrorBody).message = "Invalid request"
    ∧ (buildErrorResponse 400 true validationErrorBody).details =
        [{ field := "amount", issue := "required" }] :=
  send_status_classification 400 true validationErrorBody DestKind.nilDest
    (fun _ (a : Unit) => (a, none)) () (by decide)

end Payment

namespace Payment

/-- The P6 success body. -/
def orderBody : String := "\x7b\"id\":\"PAY-1\"\x7d"

/-- Claim C6: for every 2xx response handled by `Send`, a nil destination
returns success without decoding, an `io.Writer` destination receives the
body verbatim with success, and a typed destination gets the JSON-decoded
value with any decode failure returned as-is (only injected into the error
sum, its message unchanged); the P6 body decodes into `ID = "PAY-1"`. -/
theorem send_success_handling {α : Type} (status : Nat) (readOk : Bool)
    (body : String) (decode : String → α → α × Option String) (init : α)
    (h1 : 200 ≤ status) (h2 : status ≤ 299) :
    Send (.response status readOk body) DestKind.nilDest decode init =
      { err := none, written := none, val := init }
    ∧ Send (.response status readOk body) DestKind.writer decode init =
      { err := none, written := some body, val := init }
    ∧ (Send (.response status readOk body) DestKind.typed decode init).val =
      (decode body init).1
    ∧ (Send (.response status readOk body) DestKind.typed decode init).err =
      ((decode body init).2).map GoError.decode
    ∧ (Send (.response 200 true orderBody) DestKind.typed decodeOrderBody
        zeroOrderRec).val.id = "PAY-1" := by
  have hns : ¬ (status < 200 ∨ status > 299) := by omega
  refine ⟨by simp [Send, hns], by simp [Send, hns], ?_, ?_, by decide⟩
  · simp [Send, hns]
  · simp [Send, hns]

/-- Witness for `send_success_handling`: a `200` response carrying the P6
body decoded into the order destination. -/
theorem send_success_handling_witness :
    Send (.response 200 true orderBody) DestKind.nilDest decodeOrderBody
        zeroOrderRec =
      { err := none, written := none, val := zeroOrderRec }
    ∧ Send (.response 200 true orderBody) DestKind.writer decodeOrderBody
        zeroOrderRec =
      { err := none, written := some orderBody, val := zeroOrderRec }
    ∧ (Send (.response 200 true orderBody) DestKind.typed decodeOrderBody
        zeroOrderRec).val = (decodeOrderBody orderBody zeroOrderRec).1
    ∧ (Send (.response 200 true orderBody) DestKind.typed decodeOrderBody
        zeroOrderRec).err =
      ((decodeOrderBody orderBody zeroOrderRec).2).map GoError.decode
    ∧ (Send (.response 200 true orderBody) DestKind.typed decodeOrderBody
        zeroOrderRec).val.id = "PAY-1" :=
  send_success_handling 200 true orderBody decodeOrderBody zeroOrderRec
    (by decide) (by decide)

/-- Claim C7: after every `GetAccessToken` whose decoded response carries a
non-empty access token, the stored expiry instant equals the acquisition
time plus the response's `expires_in` seconds, and the held token is that
response; a call whose decoded response carries an empty token leaves the
state unchanged, so the relation holds whenever Token State is set. -/
theorem getAccessToken_expiry_invariant (st : ClientState) (now : Int)
    (net : NetResult)
    (h : ((GetAccessToken st now net).1.1).token ≠ "") :
    (GetAccessToken st now net).2.tokenExpiresAt =
      now + ((GetAccessToken st now net).1.1).expiresIn
    ∧ (GetAccessToken st now net).2.token = some ((GetAccessToken st now net).1.1) := by
  have h' : ¬ (Send net .typed decodeTokenBody zeroTokenResponse).val.token = "" := by
    simpa [GetAccessToken] using h
  simp [GetAccessToken, h']

/-- Witness for `getAccessToken_expiry_invariant`: a clean token response at
time 50 with `expires_in = 200` stores expiry instant 250. -/
theorem getAccessToken_expiry_invariant_witness :
    (GetAccessToken (⟨none, 0⟩ : ClientState) 50
        (NetResult.response 200 true tokenBodyOk)).2.tokenExpiresAt =
      50 + ((GetAccessToken (⟨none, 0⟩ : ClientState) 50
        (NetResult.response 200 true tokenBodyOk)).1.1).expiresIn
    ∧ (GetAccessToken (⟨none, 0⟩ : ClientState) 50
        (NetResult.response 200 true tokenBodyOk)).2.token =
      some ((GetAccessToken (⟨none, 0⟩ : ClientState) 50
        (NetResult.response 200 true tokenBodyOk)).1.1) :=
  getAccessToken_expiry_invariant (⟨none, 0⟩ : ClientState) 50
    (NetResult.response 200 true tokenBodyOk) (by decide)

end Payment

namespace Payment

/-- Claim C8: for each idempotency-capable write operation
(`CaptureAuthorizationWithPaypalRequestId`, `CaptureOrderWithPaypalRequestId`,
`CreateOrderWithPaypalRequestID`), the outgoing request — after `Send`'s
header defaulting — carries the supplied identifier verbatim as the
`PayPal-Request-Id` header exactly when it is non-empty, and the header is
absent when the identifier is empty. (`CaptureOrderWithPaypalRequestId`
switches the client to return-representation mode, hence the `true` flag.) -/
theorem paypalRequestId_header_passthrough (returnRepresentation : Bool)
    (requestID : String) :
    headerFind? (sendDefaultHeaders returnRepresentation
        (captureAuthorizationRequestHeaders requestID)) "PayPal-Request-Id" =
      (if requestID = "" then none else some requestID)
    ∧ headerFind? (sendDefaultHeaders true
        (captureOrderRequestHeaders requestID)) "PayPal-Request-Id" =
      (if requestID = "" then none else some requestID)
    ∧ headerFind? (sendDefaultHeaders returnRepresentation
        (createOrderRequestHeaders requestID)) "PayPal-Request-Id" =
      (if requestID = "" then none else some requestID) := by
  by_cases hid : requestID = "" <;>
    cases returnRepresentation <;>
      simp [hid, captureAuthorizationRequestHeaders, captureOrderRequestHeaders,
        createOrderRequestHeaders, sendDefaultHeaders, headerSet, headerGet,
        headerFind?, List.filter, List.find?]

/-- Claim C9: when an `ExecuteApprovedAgreement` call's HTTP exchange succeeds
(`SendWithAuth` returns no error) but the decoded response has an empty `ID`,
the operation returns the decoded response together with the descriptive
application-level error `Unable to execute agreement with token=<token>`,
which is distinct (as an error shape) from transport and provider errors. -/
theorem executeApprovedAgreement_empty_id_error (st : ClientState) (now : Int)
    (token : String) (tokenNet bizNet : NetResult) (tok : TokenResponse)
    (htok : st.token = some tok)
    (herr : (SendWithAuth st now tokenNet bizNet .typed decodeExecAgreementBody
        zeroExecAgreementResponse).err = none)
    (hid : (SendWithAuth st now tokenNet bizNet .typed decodeExecAgreementBody
        zeroExecAgreementResponse).val.id = "") :
    ExecuteApprovedAgreement st now token tokenNet bizNet =
      ExecOutcome.result
        (SendWithAuth st now tokenNet bizNet .typed decodeExecAgreementBody
          zeroExecAgreementResponse).val
        (some (GoError.app ("Unable to execute agreement with token=" ++ token)))
        (SendWithAuth st now tokenNet bizNet .typed decodeExecAgreementBody
          zeroExecAgreementResponse).state
    ∧ (∀ m, GoError.app ("Unable to execute agreement with token=" ++ token) ≠
        GoError.transport m)
    ∧ (∀ e, GoError.app ("Unable to execute agreement with token=" ++ token) ≠
        GoError.errorResponse e) := by
  refine ⟨by simp [ExecuteApprovedAgreement, htok, herr, hid], ?_, ?_⟩
  · intro m h
    cases h
  · intro e h
    cases h

/-- Witness for `executeApprovedAgreement_empty_id_error`: a client holding a
fresh token gets a `200` whose body is the empty JSON object, so the decoded
`ID` is empty. -/
theorem executeApprovedAgreement_empty_id_error_witness :
    ExecuteApprovedAgreement (⟨some heldToken, 1000⟩ : ClientState) 0 "EC-42"
        (NetResult.transportErr "unused") (NetResult.response 200 true emptyObjBody) =
      ExecOutcome.result
        (SendWithAuth (⟨some heldToken, 1000⟩ : ClientState) 0
          (NetResult.transportErr "unused") (NetResult.response 200 true emptyObjBody)
          .typed decodeExecAgreementBody zeroExecAgreementResponse).val
        (some (GoError.app ("Unable to execute agreement with token=" ++ "EC-42")))
        (SendWithAuth (⟨some heldToken, 1000⟩ : ClientState) 0
          (NetResult.transportErr "unused") (NetResult.response 200 true emptyObjBody)
          .typed decodeExecAgreementBody zeroExecAgreementResponse).state
    ∧ (∀ m, GoError.app ("Unable to execute agreement with token=" ++ "EC-42") ≠
        GoError.transport m)
    ∧ (∀ e, GoError.app ("Unable to execute agreement with token=" ++ "EC-42") ≠
        GoError.errorResponse e) :=
  executeApprovedAgreement_empty_id_error (⟨some heldToken, 1000⟩ : ClientState) 0
    "EC-42" (NetResult.transportErr "unused")
    (NetResult.response 200 true emptyObjBody) heldToken rfl (by decide) (by decide)

/-- Claim C10: `ExecuteApprovedAgreement` reads `c.Token.Token` before
dispatching, so a call made while no token is held reaches the nil-token
dereference (a crash) instead of attempting the call unauthenticated; with a
token held, the dereference is safe and the crash outcome is unreachable. -/
theorem executeApprovedAgreement_nil_token_panics (st : ClientState) (now : Int)
    (token : String) (tokenNet bizNet : NetResult) :
    ExecuteApprovedAgreement st now token tokenNet bizNet =
      ExecOutcome.nilTokenPanic ↔ st.token = none := by
  cases hst : st.token with
  | none => simp [ExecuteApprovedAgreement, hst]
  | some t =>
    simp only [ExecuteApprovedAgreement, hst]
    rcases h : (SendWithAuth st now tokenNet bizNet .typed decodeExecAgreementBody
        zeroExecAgreementResponse).err with _ | e
    · constructor
      · intro hcontr
        by_cases hv : (SendWithAuth st now tokenNet bizNet .typed
            decodeExecAgreementBody zeroExecAgreementResponse).val.id = "" <;>
          simp [hv] at hcontr
      · intro hcontr
        cases hcontr
    · constructor
      · intro hcontr
        cases hcontr
      · intro hcontr
        cases hcontr

end Payment
